import Mathlib

/-
Verification of the ride-booking analytics service (file-backed `main.py`
and store-backed `main_db.py` variants) against its specification.

The data model and each operation are embedded shallowly: a dataset is a
`List UberBooking`, every SQL aggregation is translated into the
corresponding filter/dedup/count/sort pipeline over that list, and the
pandas filtering code of the file-backed variant is translated into list
filtering.  All definitions are executable.
-/

namespace UberDA

/-- Calendar date as parsed by the engines from the `Date` column. -/
structure DateT where
  year : Nat
  month : Nat
  day : Nat
deriving DecidableEq

/-- Time of day as parsed by the engines from the `Time` column. -/
structure TimeT where
  hh : Nat
  mm : Nat
  ss : Nat
deriving DecidableEq

/-- One booking row.  `date`/`time` are `Option` because the source file may
hold unparsable values (the SQL queries guard with `IS NOT NULL`).  In the
file-backed variant `booking_id`/`customer_id` are stored as they appear in
the file (wrapped in literal quote characters); in the store-backed variant
they are stored already stripped by the ETL step.  An empty
`payment_method` models both the empty string of the file variant and the
database NULL of the store variant (spec §4.3 requires them to compare
equal). -/
structure UberBooking where
  date : Option DateT
  time : Option TimeT
  booking_id : String
  booking_status : String
  customer_id : String
  vehicle_type : String
  payment_method : String
deriving DecidableEq

/-- The literal quote character `"` (code point 34). -/
def quoteChar : Char := Char.ofNat 34

/-- Quote removal as performed by the code: `REPLACE(x, '"', '')` in the
DuckDB queries of `main.py` and `.str.replace('"', "", regex=False)` in
`normalize_dataframe` of `load_csv_to_postgres.py`.  Both remove every
occurrence of the quote character, not only a leading/trailing pair. -/
def stripQ (s : String) : String :=
  String.mk (s.data.filter (fun c => decide (c ≠ quoteChar)))

/-- Quote wrapping as performed by `get_bookings` / `get_booking_by_id` in
`main.py`: `f'"{x}"'` turns the raw request parameter into the quoted form
stored in the file. -/
def wrapQ (s : String) : String :=
  String.mk (quoteChar :: (s.data ++ [quoteChar]))

/-- Quote-strip of exactly one leading/trailing pair, as the spec (§4.3)
describes the normalization: remove the first and last character when both
are quote characters, leave everything else (interior quotes included)
unchanged.  This is the spec-side definition, used to compare the spec's
wording with what the code (`stripQ`) actually does. -/
def specStripOuterPair (s : String) : String :=
  match s.data with
  | [] => s
  | c :: rest =>
    if c = quoteChar ∧ rest ≠ [] ∧ rest.getLast? = some quoteChar
    then String.mk rest.dropLast
    else s

/-- Count of distinct values in a list: the embedding of SQL
`COUNT(DISTINCT e)` applied to the list of the values of `e` over the
group's rows. -/
def distinctCount (l : List String) : Nat :=
  l.dedup.length

/-- Ascending sort by a key, the embedding of SQL `ORDER BY key`. -/
def sortOn {α β : Type*} [LinearOrder β] (f : α → β) (l : List α) : List α :=
  l.insertionSort (fun a b => f a ≤ f b)

/-- Descending sort by a key, the embedding of SQL `ORDER BY key DESC`. -/
def sortOnDesc {α β : Type*} [LinearOrder β] (f : α → β) (l : List α) : List α :=
  l.insertionSort (fun a b => f b ≤ f a)

/-- Hour of day extracted from the `time` column (`EXTRACT(hour FROM Time)`),
`none` when the value is NULL (row excluded by `WHERE Time IS NOT NULL`). -/
def hourOf (r : UberBooking) : Option Nat :=
  r.time.map (fun t => t.hh)

/-- Day of week of a Gregorian calendar date, 0 = Sunday … 6 = Saturday,
matching `EXTRACT(dow FROM Date)` of both engines (Sakamoto's method). -/
def dayOfWeek (dt : DateT) : Nat :=
  let t := [0, 3, 2, 5, 0, 3, 5, 1, 4, 6, 2, 4]
  let y := if dt.month < 3 then dt.year - 1 else dt.year
  (y + y / 4 - y / 100 + y / 400 + t.getD (dt.month - 1) 0 + dt.day) % 7

/-- Weekday number of a row, `none` on a NULL date. -/
def weekdayOf (r : UberBooking) : Option Nat :=
  r.date.map dayOfWeek

/-- Weekday name as produced by the `CASE EXTRACT(dow FROM Date)` expression
of both variants; the catch-all is unreachable because `dayOfWeek` always
yields a value below 7. -/
def weekdayName : Nat → String
  | 0 => "Sunday"
  | 1 => "Monday"
  | 2 => "Tuesday"
  | 3 => "Wednesday"
  | 4 => "Thursday"
  | 5 => "Friday"
  | 6 => "Saturday"
  | _ => ""

/-- Left-pad a numeral to two digits, as the `%m` / `MM` date formats do. -/
def pad2 (n : Nat) : String :=
  if n < 10 then "0" ++ toString n else toString n

/-- Left-pad a numeral to four digits, as the `%Y` / `YYYY` formats do. -/
def pad4 (n : Nat) : String :=
  if n < 10 then "000" ++ toString n
  else if n < 100 then "00" ++ toString n
  else if n < 1000 then "0" ++ toString n
  else toString n

/-- The `YYYY-MM` month key produced by `strftime(Date, '%Y-%m')` in the
file variant and `TO_CHAR(date, 'YYYY-MM')` in the store variant. -/
def monthStr (dt : DateT) : String :=
  pad4 dt.year ++ "-" ++ pad2 dt.month

/-- Month key of a row, `none` on a NULL date. -/
def monthOf (r : UberBooking) : Option String :=
  r.date.map monthStr

/-
The nine aggregation queries, written once, parameterized by the booking-id
key `idK` and customer key `custK` of the variant: the file-backed queries
use `stripQ ∘ booking_id` / `stripQ ∘ customer_id` (they read the quoted
file), the store-backed queries use the raw columns (stripped at ETL time).
Each definition is the direct translation of the SQL: restrict rows per the
WHERE clause, take one group per distinct key among the rows, compute
`COUNT(DISTINCT idK)` within each group, then apply the ORDER BY (and any
LIMIT).
-/

/-- GROUP BY booking_status with distinct-booking counts, ordered by count
descending (`get_booking_status_breakdown`). -/
def statusBreakdownG (idK : UberBooking → String) (ds : List UberBooking) :
    List (String × Nat) :=
  sortOnDesc (fun e => e.2)
    (((ds.map (fun r => r.booking_status)).dedup).map (fun s =>
      (s, distinctCount ((ds.filter (fun r => r.booking_status = s)).map idK))))

/-- GROUP BY hour over rows with a non-null time, ordered by hour ascending
(`get_bookings_per_hour`). -/
def bookingsPerHourG (idK : UberBooking → String) (ds : List UberBooking) :
    List (Nat × Nat) :=
  sortOn (fun e => e.1)
    (((ds.filterMap hourOf).dedup).map (fun h =>
      (h, distinctCount ((ds.filter (fun r => hourOf r = some h)).map idK))))

/-- GROUP BY weekday over rows with a non-null date, ordered by weekday
number ascending (`get_bookings_per_weekday`). -/
def bookingsPerWeekdayG (idK : UberBooking → String) (ds : List UberBooking) :
    List (Nat × String × Nat) :=
  sortOn (fun e => e.1)
    (((ds.filterMap weekdayOf).dedup).map (fun w =>
      (w, weekdayName w,
        distinctCount ((ds.filter (fun r => weekdayOf r = some w)).map idK))))

/-- GROUP BY `YYYY-MM` month over rows with a non-null date, ordered by the
month string ascending (`get_bookings_per_month`). -/
def bookingsPerMonthG (idK : UberBooking → String) (ds : List UberBooking) :
    List (String × Nat) :=
  sortOn (fun e => e.1)
    (((ds.filterMap monthOf).dedup).map (fun mo =>
      (mo, distinctCount ((ds.filter (fun r => monthOf r = some mo)).map idK))))

/-- Hourly groups ordered by distinct-booking count descending and truncated
to `limit` (`get_peak_hours`). -/
def peakHoursG (idK : UberBooking → String) (ds : List UberBooking)
    (limit : Nat) : List (Nat × Nat) :=
  (sortOnDesc (fun e => e.2)
    (((ds.filterMap hourOf).dedup).map (fun h =>
      (h, distinctCount ((ds.filter (fun r => hourOf r = some h)).map idK))))).take limit

/-- GROUP BY vehicle_type with distinct-booking and distinct-customer
counts, ordered by booking count descending (`get_vehicle_type_stats`). -/
def vehicleTypeStatsG (idK custK : UberBooking → String) (ds : List UberBooking) :
    List (String × Nat × Nat) :=
  sortOnDesc (fun e => e.2.1)
    (((ds.map (fun r => r.vehicle_type)).dedup).map (fun vt =>
      (vt, distinctCount ((ds.filter (fun r => r.vehicle_type = vt)).map idK),
        distinctCount ((ds.filter (fun r => r.vehicle_type = vt)).map custK))))

/-- GROUP BY payment_method over rows whose payment method is recorded
(`WHERE payment_method IS NOT NULL AND payment_method <> ''`), ordered by
count descending (`get_payment_method_stats`). -/
def paymentMethodStatsG (idK : UberBooking → String) (ds : List UberBooking) :
    List (String × Nat) :=
  sortOnDesc (fun e => e.2)
    ((((ds.filter (fun r => r.payment_method ≠ "")).map
        (fun r => r.payment_method)).dedup).map (fun pm =>
      (pm, distinctCount ((ds.filter
        (fun r => r.payment_method ≠ "" ∧ r.payment_method = pm)).map idK))))

/-- GROUP BY customer with distinct-booking counts, ordered by count
descending, before the LIMIT (`get_top_customers` without its LIMIT). -/
def topCustomersAllG (custK idK : UberBooking → String) (ds : List UberBooking) :
    List (String × Nat) :=
  sortOnDesc (fun e => e.2)
    (((ds.map custK).dedup).map (fun c =>
      (c, distinctCount ((ds.filter (fun r => custK r = c)).map idK))))

/-- Top customers truncated to the caller's limit (`get_top_customers`). -/
def topCustomersG (custK idK : UberBooking → String) (ds : List UberBooking)
    (limit : Nat) : List (String × Nat) :=
  (topCustomersAllG custK idK ds).take limit

/-- Payment-method breakdown of the single top customer
(`get_top_customer_payment_methods`): the CTE computes the customer ordered
first by the top-customer query (`LIMIT 1`), the outer query joins that
customer's rows and groups them by payment method, ordered by count
descending. -/
def topCustomerPaymentMethodsG (custK idK : UberBooking → String)
    (ds : List UberBooking) : List (String × String × Nat) :=
  match (topCustomersAllG custK idK ds).head? with
  | none => []
  | some top =>
    sortOnDesc (fun e => e.2.2)
      ((((ds.filter (fun r => custK r = top.1)).map
          (fun r => r.payment_method)).dedup).map (fun pm =>
        (top.1, pm, distinctCount ((ds.filter
          (fun r => custK r = top.1 ∧ r.payment_method = pm)).map idK))))

/-- File-variant booking-id key: `REPLACE("Booking ID", '"', '')`. -/
def fileIdK (r : UberBooking) : String := stripQ r.booking_id

/-- File-variant customer key: `REPLACE("Customer ID", '"', '')`. -/
def fileCustK (r : UberBooking) : String := stripQ r.customer_id

/-- Store-variant booking-id key: the raw `booking_id` column. -/
def dbIdK (r : UberBooking) : String := r.booking_id

/-- Store-variant customer key: the raw `customer_id` column. -/
def dbCustK (r : UberBooking) : String := r.customer_id

def get_booking_status_breakdown (ds : List UberBooking) : List (String × Nat) :=
  statusBreakdownG fileIdK ds

def get_bookings_per_hour (ds : List UberBooking) : List (Nat × Nat) :=
  bookingsPerHourG fileIdK ds

def get_bookings_per_weekday (ds : List UberBooking) : List (Nat × String × Nat) :=
  bookingsPerWeekdayG fileIdK ds

def get_bookings_per_month (ds : List UberBooking) : List (String × Nat) :=
  bookingsPerMonthG fileIdK ds

def get_peak_hours (ds : List UberBooking) (limit : Nat) : List (Nat × Nat) :=
  peakHoursG fileIdK ds limit

def get_vehicle_type_stats (ds : List UberBooking) : List (String × Nat × Nat) :=
  vehicleTypeStatsG fileIdK fileCustK ds

def get_payment_method_stats (ds : List UberBooking) : List (String × Nat) :=
  paymentMethodStatsG fileIdK ds

def get_top_customers (ds : List UberBooking) (limit : Nat) : List (String × Nat) :=
  topCustomersG fileCustK fileIdK ds limit

def get_top_customer_payment_methods (ds : List UberBooking) :
    List (String × String × Nat) :=
  topCustomerPaymentMethodsG fileCustK fileIdK ds

def db_get_booking_status_breakdown (ds : List UberBooking) : List (String × Nat) :=
  statusBreakdownG dbIdK ds

def db_get_bookings_per_hour (ds : List UberBooking) : List (Nat × Nat) :=
  bookingsPerHourG dbIdK ds

def db_get_bookings_per_weekday (ds : List UberBooking) : List (Nat × String × Nat) :=
  bookingsPerWeekdayG dbIdK ds

def db_get_bookings_per_month (ds : List UberBooking) : List (String × Nat) :=
  bookingsPerMonthG dbIdK ds

def db_get_peak_hours (ds : List UberBooking) (limit : Nat) : List (Nat × Nat) :=
  peakHoursG dbIdK ds limit

def db_get_vehicle_type_stats (ds : List UberBooking) : List (String × Nat × Nat) :=
  vehicleTypeStatsG dbIdK dbCustK ds

def db_get_payment_method_stats (ds : List UberBooking) : List (String × Nat) :=
  paymentMethodStatsG dbIdK ds

def db_get_top_customers (ds : List UberBooking) (limit : Nat) : List (String × Nat) :=
  topCustomersG dbCustK dbIdK ds limit

def db_get_top_customer_payment_methods (ds : List UberBooking) :
    List (String × String × Nat) :=
  topCustomerPaymentMethodsG dbCustK dbIdK ds

/-- Result shape of the bookings list operation: the (possibly truncated)
rows, the pre-truncation match count, and the returned count. -/
structure BookingsOut where
  bookings : List UberBooking
  total_found : Nat
  returned : Nat
deriving DecidableEq

/-- An HTTPException as raised by either variant: status code and detail. -/
structure HErr where
  code : Nat
  msg : String
deriving DecidableEq

/-- Conjunction of the optional equality filters of `get_bookings` in
`main.py`.  Python truthiness (`if status:`) skips a filter that is absent
or the empty string; the customer filter compares against the quote-wrapped
parameter (`f'"{customer_id}"'`) because the file stores customer ids
quoted. -/
def fileBookingsPred (st vt cid : Option String) (r : UberBooking) : Bool :=
  (match st with
   | none => true
   | some s => if s = "" then true else r.booking_status = s) &&
  (match vt with
   | none => true
   | some v => if v = "" then true else r.vehicle_type = v) &&
  (match cid with
   | none => true
   | some c => if c = "" then true else r.customer_id = wrapQ c)

/-- Core of `get_bookings` in `main.py`, once the cache is loaded: filter
the cached rows sequentially by the supplied predicates, report the
pre-truncation count (`len(filtered_df)`), and return the first `limit`
rows (`filtered_df.head(limit)`) in their storage order — no sorting. -/
def pandasGetBookings (ds : List UberBooking) (limit : Nat)
    (st vt cid : Option String) : BookingsOut :=
  let filtered := ds.filter (fileBookingsPred st vt cid)
  let res := filtered.take limit
  ⟨res, filtered.length, res.length⟩

/-- The `/bookings` endpoint of `main.py` with its cache state: raises
HTTP 500 "Data not loaded" when `df_cache is None`, and never writes the
cache. -/
def get_bookings (cache : Option (List UberBooking)) (limit : Nat)
    (st vt cid : Option String) :
    Except HErr BookingsOut × Option (List UberBooking) :=
  match cache with
  | none => (Except.error ⟨500, "Data not loaded"⟩, none)
  | some ds => (Except.ok (pandasGetBookings ds limit st vt cid), some ds)

/-- The `/bookings/{booking_id}` endpoint of `main.py`: wraps the raw path
parameter in quotes (`f'"{booking_id}"'`), selects the rows whose stored
`Booking ID` equals that quoted form, returns the first match or raises
HTTP 404. -/
def get_booking_by_id (cache : Option (List UberBooking)) (bid : String) :
    Except HErr UberBooking × Option (List UberBooking) :=
  match cache with
  | none => (Except.error ⟨500, "Data not loaded"⟩, none)
  | some ds =>
    match ds.filter (fun r => r.booking_id = wrapQ bid) with
    | [] => (Except.error ⟨404, "Booking not found"⟩, some ds)
    | r :: _ => (Except.ok r, some ds)

/-- Conjunction of the optional equality filters of `get_bookings` in
`main_db.py` (`WHERE booking_status = :status AND …`); the customer id is
compared verbatim. -/
def dbBookingsPred (st vt cid : Option String) (r : UberBooking) : Bool :=
  (match st with
   | none => true
   | some s => if s = "" then true else r.booking_status = s) &&
  (match vt with
   | none => true
   | some v => if v = "" then true else r.vehicle_type = v) &&
  (match cid with
   | none => true
   | some c => if c = "" then true else r.customer_id = c)

/-- Sort key of `ORDER BY date, time, booking_id` in `main_db.py`:
lexicographic on the date components, then the time components, then the
id string.  The schema (`load_csv_to_postgres.define_schema`) declares both
`date` and `time` NOT NULL, so the `none` default is unreachable for rows
produced by the ETL step. -/
def dbOrderKey (r : UberBooking) :
    Lex (Nat × Lex (Nat × Lex (Nat × Lex (Nat × Lex (Nat × Lex (Nat × String)))))) :=
  let d := r.date.getD ⟨0, 0, 0⟩
  let t := r.time.getD ⟨0, 0, 0⟩
  toLex (d.year, toLex (d.month, toLex (d.day,
    toLex (t.hh, toLex (t.mm, toLex (t.ss, r.booking_id))))))

/-- The `/bookings` endpoint of `main_db.py`: `COUNT(*)` of the rows
matching the filters, then the matching rows ordered by
`date, time, booking_id` and truncated by `LIMIT :limit`. -/
def db_get_bookings (ds : List UberBooking) (limit : Nat)
    (st vt cid : Option String) : BookingsOut :=
  let filtered := ds.filter (dbBookingsPred st vt cid)
  let rows := (sortOn dbOrderKey filtered).take limit
  ⟨rows, filtered.length, rows.length⟩

/-- The `/bookings/{booking_id}` endpoint of `main_db.py`: selects rows
whose stored `booking_id` equals the raw path parameter (`LIMIT 1`),
returning the first match in storage order or raising HTTP 404. -/
def db_get_booking_by_id (ds : List UberBooking) (bid : String) :
    Except HErr UberBooking :=
  match ds.filter (fun r => r.booking_id = bid) with
  | [] => Except.error ⟨404, "Booking not found"⟩
  | r :: _ => Except.ok r

/-- Validation semantics of a `Query(default, ge=lo, le=hi)` limit
parameter as declared on `get_peak_hours`, `get_top_customers` and
`get_bookings` in both variants: an omitted parameter takes the default, an
out-of-range value is rejected with HTTP 422 before the endpoint body (and
hence any query) runs. -/
def validateLimit (given : Option Int) (deflt lo hi : Int) : Except Nat Int :=
  match given with
  | none => Except.ok deflt
  | some v => if lo ≤ v ∧ v ≤ hi then Except.ok v else Except.error 422

/-- `/analytics/peak-hours` with its declared `Query(5, ge=1, le=24)`
validation in front of the query body. -/
def peak_hours_endpoint (ds : List UberBooking) (lim : Option Int) :
    Except Nat (List (Nat × Nat)) :=
  (validateLimit lim 5 1 24).map (fun l => get_peak_hours ds l.toNat)

/-- `/analytics/top-customers` with its declared `Query(10, ge=1, le=100)`
validation in front of the query body. -/
def top_customers_endpoint (ds : List UberBooking) (lim : Option Int) :
    Except Nat (List (String × Nat)) :=
  (validateLimit lim 10 1 100).map (fun l => get_top_customers ds l.toNat)

/-- `/bookings` with its declared `Query(100, ge=1, le=1000)` validation in
front of the endpoint body. -/
def bookings_endpoint (ds : List UberBooking) (lim : Option Int)
    (st vt cid : Option String) : Except Nat BookingsOut :=
  (validateLimit lim 100 1 1000).map (fun l => pandasGetBookings ds l.toNat st vt cid)

instance exceptDecEq {ε α : Type*} [DecidableEq ε] [DecidableEq α] :
    DecidableEq (Except ε α)
  | Except.error a, Except.error b =>
    if h : a = b then isTrue (by rw [h])
    else isFalse (by intro hc; cases hc; exact h rfl)
  | Except.error _, Except.ok _ => isFalse (by intro hc; cases hc)
  | Except.ok _, Except.error _ => isFalse (by intro hc; cases hc)
  | Except.ok a, Except.ok b =>
    if h : a = b then isTrue (by rw [h])
    else isFalse (by intro hc; cases hc; exact h rfl)

/-- The four-row dataset used by the repository's own test suite
(`tests/test_api.py`), with ids quoted as they are in the file. -/
def sampleDs : List UberBooking :=
  [⟨some ⟨2025, 9, 1⟩, some ⟨8, 15, 0⟩, "\"B001\"", "Completed", "\"C001\"", "Sedan", "Card"⟩,
   ⟨some ⟨2025, 9, 1⟩, some ⟨9, 45, 0⟩, "\"B002\"", "Cancelled", "\"C002\"", "SUV", "Cash"⟩,
   ⟨some ⟨2025, 9, 2⟩, some ⟨8, 30, 0⟩, "\"B003\"", "Completed", "\"C001\"", "Sedan", "Card"⟩,
   ⟨some ⟨2025, 9, 3⟩, some ⟨20, 0, 0⟩, "\"B004\"", "Completed", "\"C003\"", "Bike", ""⟩]

/-- Two raw rows re-emitting the same logical booking (identical
`booking_id` after quote-stripping). -/
def dupDs : List UberBooking :=
  [⟨some ⟨2025, 9, 1⟩, some ⟨8, 0, 0⟩, "\"B001\"", "Completed", "\"C001\"", "Sedan", "Card"⟩,
   ⟨some ⟨2025, 9, 1⟩, some ⟨8, 0, 0⟩, "\"B001\"", "Completed", "\"C001\"", "Sedan", "Card"⟩]

/-- Rows re-emitting one logical booking under two different statuses:
the per-status groups then overlap on that booking. -/
def mixDs : List UberBooking :=
  [⟨some ⟨2025, 9, 1⟩, some ⟨8, 0, 0⟩, "\"B001\"", "Completed", "\"C001\"", "Sedan", "Card"⟩,
   ⟨some ⟨2025, 9, 1⟩, some ⟨8, 0, 0⟩, "\"B001\"", "Cancelled", "\"C001\"", "Sedan", "Card"⟩]

/-- Two rows stored out of chronological order: the second stored row
precedes the first in the (date, time, booking_id) order. -/
def unsortDs : List UberBooking :=
  [⟨some ⟨2025, 9, 2⟩, some ⟨8, 30, 0⟩, "\"B003\"", "Completed", "\"C001\"", "Sedan", "Card"⟩,
   ⟨some ⟨2025, 9, 1⟩, some ⟨8, 15, 0⟩, "\"B001\"", "Completed", "\"C001\"", "Sedan", "Card"⟩]

/-- One file-variant record whose stored id carries the file's quotes. -/
def quotedIdDs : List UberBooking :=
  [⟨some ⟨2025, 9, 1⟩, some ⟨8, 15, 0⟩, "\"B001\"", "Completed", "\"C001\"", "Sedan", "Card"⟩]

/-- The same record as stored by the store-backed variant (ids stripped by
the ETL step). -/
def dbIdDs : List UberBooking :=
  [⟨some ⟨2025, 9, 1⟩, some ⟨8, 15, 0⟩, "B001", "Completed", "C001", "Sedan", "Card"⟩]

theorem sortOn_perm {α β : Type*} [LinearOrder β] (f : α → β) (l : List α) :
    List.Perm (sortOn f l) l :=
  List.perm_insertionSort _ l

theorem sortOnDesc_perm {α β : Type*} [LinearOrder β] (f : α → β) (l : List α) :
    List.Perm (sortOnDesc f l) l :=
  List.perm_insertionSort _ l

theorem mem_sortOn {α β : Type*} [LinearOrder β] {f : α → β} {l : List α} {a : α} :
    a ∈ sortOn f l ↔ a ∈ l :=
  (sortOn_perm f l).mem_iff

theorem mem_sortOnDesc {α β : Type*} [LinearOrder β] {f : α → β} {l : List α} {a : α} :
    a ∈ sortOnDesc f l ↔ a ∈ l :=
  (sortOnDesc_perm f l).mem_iff

theorem sorted_sortOn {α β : Type*} [LinearOrder β] (f : α → β) (l : List α) :
    List.Sorted (fun a b => f a ≤ f b) (sortOn f l) := by
  haveI : IsTotal α (fun a b => f a ≤ f b) := ⟨fun a b => le_total (f a) (f b)⟩
  haveI : IsTrans α (fun a b => f a ≤ f b) := ⟨fun _ _ _ hab hbc => le_trans hab hbc⟩
  exact List.sorted_insertionSort _ l

theorem sorted_sortOnDesc {α β : Type*} [LinearOrder β] (f : α → β) (l : List α) :
    List.Sorted (fun a b => f b ≤ f a) (sortOnDesc f l) := by
  haveI : IsTotal α (fun a b => f b ≤ f a) := ⟨fun a b => le_total (f b) (f a)⟩
  haveI : IsTrans α (fun a b => f b ≤ f a) := ⟨fun _ _ _ hab hbc => le_trans hbc hab⟩
  exact List.sorted_insertionSort _ l

example : get_booking_status_breakdown sampleDs = [("Completed", 3), ("Cancelled", 1)] := by
  decide

example : get_bookings_per_hour sampleDs = [(8, 2), (9, 1), (20, 1)] := by
  decide

example : get_bookings_per_weekday sampleDs =
    [(1, "Monday", 2), (2, "Tuesday", 1), (3, "Wednesday", 1)] := by
  decide

example : get_bookings_per_month sampleDs = [("2025-09", 4)] := by
  decide

example : get_peak_hours sampleDs 2 = [(8, 2), (9, 1)] := by
  decide

example : get_vehicle_type_stats sampleDs =
    [("Sedan", 2, 1), ("SUV", 1, 1), ("Bike", 1, 1)] := by
  decide

example : get_payment_method_stats sampleDs = [("Card", 2), ("Cash", 1)] := by
  decide

example : get_top_customers sampleDs 2 = [("C001", 2), ("C002", 1)] := by
  decide

example : get_top_customer_payment_methods sampleDs = [("C001", "Card", 2)] := by
  decide

example : (pandasGetBookings sampleDs 100 (some "Completed") none none).total_found = 3 := by
  decide

example : (pandasGetBookings sampleDs 100 none none (some "C001")).total_found = 2 := by
  decide

example : (get_booking_by_id (some sampleDs) "B002").1 ≠
    Except.error (⟨404, "Booking not found"⟩ : HErr) := by
  decide

example : (get_booking_by_id (some sampleDs) "NOPE").1 =
    Except.error (⟨404, "Booking not found"⟩ : HErr) := by
  decide

/-- C9: for the empty record set, every aggregate endpoint — status
breakdown, bookings per hour/weekday/month, peak hours (any limit), vehicle
type stats, payment method stats, top customers (any limit), and the top
customer's payment methods — returns the empty list in both the file-backed
and the store-backed variant, never an error and never a null. -/
theorem claim9_empty_aggregates :
    get_booking_status_breakdown [] = [] ∧
    get_bookings_per_hour [] = [] ∧
    get_bookings_per_weekday [] = [] ∧
    get_bookings_per_month [] = [] ∧
    (∀ limit, get_peak_hours [] limit = []) ∧
    get_vehicle_type_stats [] = [] ∧
    get_payment_method_stats [] = [] ∧
    (∀ limit, get_top_customers [] limit = []) ∧
    get_top_customer_payment_methods [] = [] ∧
    db_get_booking_status_breakdown [] = [] ∧
    db_get_bookings_per_hour [] = [] ∧
    db_get_bookings_per_weekday [] = [] ∧
    db_get_bookings_per_month [] = [] ∧
    (∀ limit, db_get_peak_hours [] limit = []) ∧
    db_get_vehicle_type_stats [] = [] ∧
    db_get_payment_method_stats [] = [] ∧
    (∀ limit, db_get_top_customers [] limit = []) ∧
    db_get_top_customer_payment_methods [] = [] := by
  refine ⟨rfl, rfl, rfl, rfl, fun limit => List.take_nil, rfl, rfl,
    fun limit => List.take_nil, rfl, rfl, rfl, rfl, rfl,
    fun limit => List.take_nil, rfl, rfl, fun limit => List.take_nil, rfl⟩

/-- C10: in the file-backed variant, when the in-memory cache has not been
loaded (`df_cache is None`), the bookings list operation and the
lookup-by-id operation both fail with HTTP 500 "Data not loaded" instead of
returning an empty success, and the cache state is left unchanged
(still unloaded). -/
theorem claim10_not_loaded :
    ∀ (limit : Nat) (st vt cid : Option String) (bid : String),
      get_bookings none limit st vt cid =
        (Except.error ⟨500, "Data not loaded"⟩, none) ∧
      get_booking_by_id none bid =
        (Except.error ⟨500, "Data not loaded"⟩, none) := by
  intro limit st vt cid bid
  exact ⟨rfl, rfl⟩

/-- C6: for peak-hours, top-customers and the bookings list, a limit
parameter outside its declared bounds ([1,24], [1,100], [1,1000]) is
rejected with HTTP 422 before the endpoint body executes — never silently
clamped — an omitted parameter takes the default (5, 10, 100 respectively),
and an in-range parameter is used as given. -/
theorem claim6_limit_bounds :
    (∀ (v : Int) (ds : List UberBooking), (v < 1 ∨ 24 < v) →
        peak_hours_endpoint ds (some v) = Except.error 422) ∧
    (∀ ds, peak_hours_endpoint ds none = Except.ok (get_peak_hours ds 5)) ∧
    (∀ (v : Int) (ds : List UberBooking), 1 ≤ v → v ≤ 24 →
        peak_hours_endpoint ds (some v) = Except.ok (get_peak_hours ds v.toNat)) ∧
    (∀ (v : Int) (ds : List UberBooking), (v < 1 ∨ 100 < v) →
        top_customers_endpoint ds (some v) = Except.error 422) ∧
    (∀ ds, top_customers_endpoint ds none = Except.ok (get_top_customers ds 10)) ∧
    (∀ (v : Int) (ds : List UberBooking), 1 ≤ v → v ≤ 100 →
        top_customers_endpoint ds (some v) = Except.ok (get_top_customers ds v.toNat)) ∧
    (∀ (v : Int) (ds : List UberBooking) (st vt cid : Option String),
        (v < 1 ∨ 1000 < v) →
        bookings_endpoint ds (some v) st vt cid = Except.error 422) ∧
    (∀ (ds : List UberBooking) (st vt cid : Option String),
        bookings_endpoint ds none st vt cid =
          Except.ok (pandasGetBookings ds 100 st vt cid)) ∧
    (∀ (v : Int) (ds : List UberBooking) (st vt cid : Option String),
        1 ≤ v → v ≤ 1000 →
        bookings_endpoint ds (some v) st vt cid =
          Except.ok (pandasGetBookings ds v.toNat st vt cid)) := by
  refine ⟨?_, fun ds => rfl, ?_, ?_, fun ds => rfl, ?_, ?_,
    fun ds st vt cid => rfl, ?_⟩
  · intro v ds h
    have hn : ¬(1 ≤ v ∧ v ≤ 24) := by omega
    simp [peak_hours_endpoint, validateLimit, hn, Except.map]
  · intro v ds h1 h2
    have hy : (1 ≤ v ∧ v ≤ 24) := ⟨h1, h2⟩
    simp [peak_hours_endpoint, validateLimit, hy, Except.map]
  · intro v ds h
    have hn : ¬(1 ≤ v ∧ v ≤ 100) := by omega
    simp [top_customers_endpoint, validateLimit, hn, Except.map]
  · intro v ds h1 h2
    have hy : (1 ≤ v ∧ v ≤ 100) := ⟨h1, h2⟩
    simp [top_customers_endpoint, validateLimit, hy, Except.map]
  · intro v ds st vt cid h
    have hn : ¬(1 ≤ v ∧ v ≤ 1000) := by omega
    simp [bookings_endpoint, validateLimit, hn, Except.map]
  · intro v ds st vt cid h1 h2
    have hy : (1 ≤ v ∧ v ≤ 1000) := ⟨h1, h2⟩
    simp [bookings_endpoint, validateLimit, hy, Except.map]

/-- Witness for C6: the out-of-range limit 25 is rejected by peak-hours on
the concrete sample dataset. -/
theorem claim6_limit_bounds_witness :
    peak_hours_endpoint sampleDs (some 25) = Except.error 422 :=
  claim6_limit_bounds.1 25 sampleDs (Or.inr (by decide))

theorem mem_agg_entries {κ β : Type*} {keys : List κ} {f : κ → β} {e : β}
    (he : e ∈ keys.map f) : ∃ k, k ∈ keys ∧ e = f k := by
  obtain ⟨k, hk, rfl⟩ := List.mem_map.1 he
  exact ⟨k, hk, rfl⟩

/-- C1: each group reported by any aggregation operation — status
breakdown, bookings per hour/weekday/month, peak hours, vehicle type
stats, payment method stats, top customers, top customer's payment
methods — carries as its bookings/unique_bookings value the number of
distinct (quote-stripped) booking_id values among the records of that
group; the same holds of the store-backed breakdown on ETL-normalized
(quote-free) data, and on a record set with duplicate rows for one booking
the reported value is the distinct count 1, not the raw row count 2. -/
theorem claim1_distinct_booking_counts :
    (∀ (ds : List UberBooking) (e : String × Nat),
      e ∈ get_booking_status_breakdown ds →
      e.2 = distinctCount ((ds.filter (fun r => r.booking_status = e.1)).map
        (fun r => stripQ r.booking_id))) ∧
    (∀ (ds : List UberBooking) (e : Nat × Nat),
      e ∈ get_bookings_per_hour ds →
      e.2 = distinctCount ((ds.filter (fun r => hourOf r = some e.1)).map
        (fun r => stripQ r.booking_id))) ∧
    (∀ (ds : List UberBooking) (e : Nat × String × Nat),
      e ∈ get_bookings_per_weekday ds →
      e.2.2 = distinctCount ((ds.filter (fun r => weekdayOf r = some e.1)).map
        (fun r => stripQ r.booking_id))) ∧
    (∀ (ds : List UberBooking) (e : String × Nat),
      e ∈ get_bookings_per_month ds →
      e.2 = distinctCount ((ds.filter (fun r => monthOf r = some e.1)).map
        (fun r => stripQ r.booking_id))) ∧
    (∀ (ds : List UberBooking) (limit : Nat) (e : Nat × Nat),
      e ∈ get_peak_hours ds limit →
      e.2 = distinctCount ((ds.filter (fun r => hourOf r = some e.1)).map
        (fun r => stripQ r.booking_id))) ∧
    (∀ (ds : List UberBooking) (e : String × Nat × Nat),
      e ∈ get_vehicle_type_stats ds →
      e.2.1 = distinctCount ((ds.filter (fun r => r.vehicle_type = e.1)).map
        (fun r => stripQ r.booking_id))) ∧
    (∀ (ds : List UberBooking) (e : String × Nat),
      e ∈ get_payment_method_stats ds →
      e.2 = distinctCount ((ds.filter (fun r => r.payment_method = e.1)).map
        (fun r => stripQ r.booking_id))) ∧
    (∀ (ds : List UberBooking) (limit : Nat) (e : String × Nat),
      e ∈ get_top_customers ds limit →
      e.2 = distinctCount ((ds.filter (fun r => stripQ r.customer_id = e.1)).map
        (fun r => stripQ r.booking_id))) ∧
    (∀ (ds : List UberBooking) (e : String × String × Nat),
      e ∈ get_top_customer_payment_methods ds →
      e.2.2 = distinctCount ((ds.filter
        (fun r => stripQ r.customer_id = e.1 ∧ r.payment_method = e.2.1)).map
        (fun r => stripQ r.booking_id))) ∧
    (∀ (ds : List UberBooking),
      (∀ r ∈ ds, stripQ r.booking_id = r.booking_id) →
      ∀ e : String × Nat, e ∈ db_get_booking_status_breakdown ds →
      e.2 = distinctCount ((ds.filter (fun r => r.booking_status = e.1)).map
        (fun r => stripQ r.booking_id))) ∧
    (get_booking_status_breakdown dupDs = [("Completed", 1)] ∧ dupDs.length = 2) := by
  refine ⟨?_, ?_, ?_, ?_, ?_, ?_, ?_, ?_, ?_, ?_, by decide, rfl⟩
  · intro ds e he
    rw [get_booking_status_breakdown, statusBreakdownG, mem_sortOnDesc] at he
    obtain ⟨s, _, rfl⟩ := mem_agg_entries he
    rfl
  · intro ds e he
    rw [get_bookings_per_hour, bookingsPerHourG, mem_sortOn] at he
    obtain ⟨h, _, rfl⟩ := mem_agg_entries he
    rfl
  · intro ds e he
    rw [get_bookings_per_weekday, bookingsPerWeekdayG, mem_sortOn] at he
    obtain ⟨w, _, rfl⟩ := mem_agg_entries he
    rfl
  · intro ds e he
    rw [get_bookings_per_month, bookingsPerMonthG, mem_sortOn] at he
    obtain ⟨mo, _, rfl⟩ := mem_agg_entries he
    rfl
  · intro ds limit e he
    rw [get_peak_hours, peakHoursG] at he
    replace he := List.Sublist.mem he (List.take_sublist _ _)
    rw [mem_sortOnDesc] at he
    obtain ⟨h, _, rfl⟩ := mem_agg_entries he
    rfl
  · intro ds e he
    rw [get_vehicle_type_stats, vehicleTypeStatsG, mem_sortOnDesc] at he
    obtain ⟨vt, _, rfl⟩ := mem_agg_entries he
    rfl
  · intro ds e he
    rw [get_payment_method_stats, paymentMethodStatsG, mem_sortOnDesc] at he
    obtain ⟨pm, hpm, rfl⟩ := mem_agg_entries he
    have hne : pm ≠ "" := by
      rw [List.mem_dedup] at hpm
      obtain ⟨r, hr, rfl⟩ := List.mem_map.1 hpm
      have := (List.mem_filter.1 hr).2
      simpa using this
    have hfe : ds.filter (fun r => decide (r.payment_method ≠ "" ∧ r.payment_method = pm))
        = ds.filter (fun r => decide (r.payment_method = pm)) := by
      refine List.filter_congr (fun r _ => ?_)
      by_cases hx : r.payment_method = pm
      · simp [hx, hne]
      · simp [hx]
    show distinctCount ((ds.filter
          (fun r => decide (r.payment_method ≠ "" ∧ r.payment_method = pm))).map fileIdK)
        = distinctCount ((ds.filter
          (fun r => decide (r.payment_method = pm))).map (fun r => stripQ r.booking_id))
    rw [hfe]
    rfl
  · intro ds limit e he
    rw [get_top_customers, topCustomersG] at he
    replace he := List.Sublist.mem he (List.take_sublist _ _)
    rw [topCustomersAllG, mem_sortOnDesc] at he
    obtain ⟨c, _, rfl⟩ := mem_agg_entries he
    rfl
  · intro ds e he
    rw [get_top_customer_payment_methods, topCustomerPaymentMethodsG] at he
    cases htop : (topCustomersAllG fileCustK fileIdK ds).head? with
    | none => rw [htop] at he; cases he
    | some top =>
      rw [htop, mem_sortOnDesc] at he
      obtain ⟨pm, _, rfl⟩ := mem_agg_entries he
      rfl
  · intro ds hq e he
    rw [db_get_booking_status_breakdown, statusBreakdownG, mem_sortOnDesc] at he
    obtain ⟨s, _, rfl⟩ := mem_agg_entries he
    have hmap : (ds.filter (fun r => decide (r.booking_status = s))).map
          (fun r => stripQ r.booking_id)
        = (ds.filter (fun r => decide (r.booking_status = s))).map dbIdK :=
      List.map_congr_left (fun r hr => hq r (List.mem_of_mem_filter hr))
    show distinctCount ((ds.filter (fun r => decide (r.booking_status = s))).map dbIdK)
        = distinctCount ((ds.filter (fun r => decide (r.booking_status = s))).map
          (fun r => stripQ r.booking_id))
    rw [hmap]

/-- Witness for C1: on the concrete sample dataset the status-breakdown
entry ("Completed", 3) reports exactly the distinct-booking count of the
Completed group. -/
theorem claim1_distinct_booking_counts_witness :
    (("Completed", 3) ∈ get_booking_status_breakdown sampleDs) ∧
    (("Completed", 3) : String × Nat).2 =
      distinctCount ((sampleDs.filter
        (fun r => r.booking_status = (("Completed", 3) : String × Nat).1)).map
        (fun r => stripQ r.booking_id)) :=
  ⟨by decide, claim1_distinct_booking_counts.1 sampleDs ("Completed", 3) (by decide)⟩

/-- Partition lemma behind the status-breakdown sum: when every value
determines its key (no value occurs under two keys), the per-group counts
of distinct values sum to the distinct-value count of the whole list. -/
theorem sum_group_dedup {α κ β : Type*} [DecidableEq κ] [DecidableEq β]
    (l : List α) (key : α → κ) (v : α → β)
    (H : ∀ a ∈ l, ∀ b ∈ l, v a = v b → key a = key b) :
    (((l.map key).dedup).map (fun s =>
      ((l.filter (fun a => key a = s)).map v).dedup.length)).sum
      = (l.map v).dedup.length := by
  have hdisj : ∀ s1 ∈ (l.map key).toFinset, ∀ s2 ∈ (l.map key).toFinset, s1 ≠ s2 →
      Disjoint (((l.filter (fun a => decide (key a = s1))).map v).toFinset)
               (((l.filter (fun a => decide (key a = s2))).map v).toFinset) := by
    intro s1 _ s2 _ hne
    rw [Finset.disjoint_left]
    intro x hx1 hx2
    rw [List.mem_toFinset] at hx1 hx2
    obtain ⟨a, ha, rfl⟩ := List.mem_map.1 hx1
    obtain ⟨b, hb, hvb⟩ := List.mem_map.1 hx2
    have ha' := List.mem_filter.1 ha
    have hb' := List.mem_filter.1 hb
    have hk1 : key a = s1 := by simpa using ha'.2
    have hk2 : key b = s2 := by simpa using hb'.2
    exact hne (hk1 ▸ hk2 ▸ H a ha'.1 b hb'.1 hvb.symm)
  have hT : (l.map v).toFinset = (l.map key).toFinset.biUnion
      (fun s => ((l.filter (fun a => decide (key a = s))).map v).toFinset) := by
    ext x
    simp only [List.mem_toFinset, Finset.mem_biUnion, List.mem_map, List.mem_filter]
    constructor
    · rintro ⟨a, ha, rfl⟩
      exact ⟨key a, ⟨a, ha, rfl⟩, a, ⟨ha, by simp⟩, rfl⟩
    · rintro ⟨s, _, a, ⟨ha, _⟩, rfl⟩
      exact ⟨a, ha, rfl⟩
  have hcard := congrArg Finset.card hT
  rw [Finset.card_biUnion hdisj] at hcard
  rw [List.card_toFinset] at hcard
  have hK : (l.map key).toFinset = ((l.map key).dedup).toFinset := by
    ext s; simp [List.mem_dedup]
  rw [hK, List.sum_toFinset _ (List.nodup_dedup _)] at hcard
  have hfun : ((l.map key).dedup).map
        (fun s => ((l.filter (fun a => decide (key a = s))).map v).toFinset.card)
      = ((l.map key).dedup).map
        (fun s => ((l.filter (fun a => key a = s)).map v).dedup.length) :=
    List.map_congr_left (fun s _ => List.card_toFinset _)
  rw [hfun] at hcard
  exact hcard.symm

/-- Counterexample to C7 as stated: on `mixDs` (one quote-stripped
booking_id appearing under the two statuses) the per-status distinct counts
sum to 2 while the distinct-booking count of the whole record set is 1. -/
theorem claim7_counterexample :
    ((get_booking_status_breakdown mixDs).map (fun e => e.2)).sum = 2 ∧
    distinctCount (mixDs.map (fun r => stripQ r.booking_id)) = 1 := by
  decide

/-- C7 (amended): when each quote-stripped booking_id occurs with a single
booking_status — in particular under the store-variant uniqueness
constraint on booking_id — the per-status distinct-booking counts of the
breakdown sum to the distinct-booking count of the whole record set, in
both variants. -/
theorem claim7_status_sum :
    ∀ ds : List UberBooking,
      (∀ r1 ∈ ds, ∀ r2 ∈ ds, stripQ r1.booking_id = stripQ r2.booking_id →
        r1.booking_status = r2.booking_status) →
      ((get_booking_status_breakdown ds).map (fun e => e.2)).sum
        = distinctCount (ds.map (fun r => stripQ r.booking_id)) ∧
      ((db_get_booking_status_breakdown ds).map (fun e => e.2)).sum
        = distinctCount (ds.map (fun r => r.booking_id)) := by
  intro ds H
  constructor
  · have hperm := ((sortOnDesc_perm (fun e : String × Nat => e.2)
      (((ds.map (fun r => r.booking_status)).dedup).map (fun s =>
        (s, distinctCount ((ds.filter (fun r => r.booking_status = s)).map
          fileIdK))))).map (fun e : String × Nat => e.2)).sum_eq
    rw [get_booking_status_breakdown, statusBreakdownG, hperm, List.map_map]
    exact sum_group_dedup ds (fun r => r.booking_status)
      (fun r => stripQ r.booking_id) H
  · have hperm := ((sortOnDesc_perm (fun e : String × Nat => e.2)
      (((ds.map (fun r => r.booking_status)).dedup).map (fun s =>
        (s, distinctCount ((ds.filter (fun r => r.booking_status = s)).map
          dbIdK))))).map (fun e : String × Nat => e.2)).sum_eq
    rw [db_get_booking_status_breakdown, statusBreakdownG, hperm, List.map_map]
    exact sum_group_dedup ds (fun r => r.booking_status)
      (fun r => r.booking_id)
      (fun a ha b hb hab => H a ha b hb (by
        show stripQ a.booking_id = stripQ b.booking_id
        have hab' : a.booking_id = b.booking_id := hab
        rw [hab']))

/-- Witness for C7 (amended): on the sample dataset (unique booking ids)
the per-status counts 3 + 1 equal the distinct-booking count 4. -/
theorem claim7_status_sum_witness :
    ((get_booking_status_breakdown sampleDs).map (fun e => e.2)).sum
      = distinctCount (sampleDs.map (fun r => stripQ r.booking_id)) :=
  (claim7_status_sum sampleDs (by decide)).1

theorem head?_take_pos {α : Type*} (l : List α) {k : Nat} (hk : 1 ≤ k) :
    (l.take k).head? = l.head? := by
  cases l with
  | nil => simp
  | cons a t =>
    cases k with
    | zero => omega
    | succ k => simp

/-- C8: for every record set and every k in [1,100], top-customers with
limit k returns at most k entries, sorted descending by distinct-booking
count, and the customer_id of its first entry is the customer_id that the
top-customer-payment-methods aggregate reports on all of its rows. -/
theorem claim8_top_customers :
    ∀ (ds : List UberBooking) (k : Nat), 1 ≤ k → k ≤ 100 →
      (get_top_customers ds k).length ≤ k ∧
      List.Sorted (fun a b : String × Nat => b.2 ≤ a.2) (get_top_customers ds k) ∧
      (∀ e ∈ get_top_customer_payment_methods ds,
        ∀ hd, (get_top_customers ds k).head? = some hd → e.1 = hd.1) := by
  intro ds k hk1 _
  refine ⟨?_, ?_, ?_⟩
  · rw [get_top_customers, topCustomersG]
    exact List.length_take_le k _
  · rw [get_top_customers, topCustomersG, topCustomersAllG]
    exact List.Pairwise.sublist (List.take_sublist _ _)
      (sorted_sortOnDesc (fun e : String × Nat => e.2) _)
  · intro e he hd hhd
    rw [get_top_customers, topCustomersG, head?_take_pos _ hk1] at hhd
    rw [get_top_customer_payment_methods, topCustomerPaymentMethodsG, hhd] at he
    rw [mem_sortOnDesc] at he
    obtain ⟨pm, _, rfl⟩ := mem_agg_entries he
    rfl

/-- Witness for C8: on the sample dataset with limit 2, the
top-customer-payment-methods entry and the first top-customers entry agree
on customer C001. -/
theorem claim8_top_customers_witness :
    (("C001", "Card", (2 : Nat)) : String × String × Nat).1
      = (("C001", (2 : Nat)) : String × Nat).1 :=
  (claim8_top_customers sampleDs 2 (by decide) (by decide)).2.2
    ("C001", "Card", 2) (by decide) ("C001", 2) (by decide)

/-- Stripping all quotes after wrapping in quotes gives the same result as
stripping the original: the wrap only adds quote characters. -/
theorem stripQ_wrapQ (s : String) : stripQ (wrapQ s) = stripQ s := by
  have h2 : List.filter (fun c => decide (c ≠ quoteChar)) [quoteChar] = [] := by decide
  show String.mk (List.filter (fun c => decide (c ≠ quoteChar))
      (quoteChar :: (s.data ++ [quoteChar]))) = stripQ s
  rw [List.filter_cons_of_neg (by decide), List.filter_append, h2, List.append_nil]
  rfl

/-- Counterexample to C2 as stated: on a record set with two raw rows for
the same logical booking (`dupDs`), bookings(status=Completed) reports
total_found = 2, while the distinct count of status==Completed records
is 1. -/
theorem claim2_counterexample :
    (pandasGetBookings dupDs 100 (some "Completed") none none).total_found = 2 ∧
    distinctCount ((dupDs.filter (fun r => r.booking_status = "Completed")).map
      (fun r => stripQ r.booking_id)) = 1 := by
  decide

/-- C2 (amended): the bookings list applies its supplied filters as a
conjunction of equality predicates before truncation, every returned record
comes from the dataset and satisfies every supplied filter (the customer
filter up to the quote-wrapping the file variant performs), and total_found
is the raw count of rows matching the filters before truncation — which
equals the distinct-booking count whenever the dataset has no duplicate
(quote-stripped) booking ids. -/
theorem claim2_bookings_filters :
    ∀ (ds : List UberBooking) (limit : Nat) (st vt cid : Option String),
      (pandasGetBookings ds limit st vt cid).bookings
        = (ds.filter (fileBookingsPred st vt cid)).take limit ∧
      (pandasGetBookings ds limit st vt cid).total_found
        = (ds.filter (fileBookingsPred st vt cid)).length ∧
      (pandasGetBookings ds limit st vt cid).returned
        = (pandasGetBookings ds limit st vt cid).bookings.length ∧
      (∀ r ∈ (pandasGetBookings ds limit st vt cid).bookings, r ∈ ds ∧
        (∀ s, st = some s → s ≠ "" → r.booking_status = s) ∧
        (∀ v, vt = some v → v ≠ "" → r.vehicle_type = v) ∧
        (∀ c, cid = some c → c ≠ "" → stripQ r.customer_id = stripQ c)) ∧
      ((ds.map (fun r => stripQ r.booking_id)).Nodup →
        (pandasGetBookings ds limit st vt cid).total_found
          = distinctCount ((ds.filter (fileBookingsPred st vt cid)).map
              (fun r => stripQ r.booking_id))) := by
  intro ds limit st vt cid
  refine ⟨rfl, rfl, rfl, ?_, ?_⟩
  · intro r hr
    have hmem := List.Sublist.mem hr (List.take_sublist _ _)
    have hflt := List.mem_filter.1 hmem
    have hpred := hflt.2
    rw [fileBookingsPred.eq_def] at hpred
    simp only [Bool.and_eq_true] at hpred
    obtain ⟨⟨h1, h2⟩, h3⟩ := hpred
    refine ⟨hflt.1, ?_, ?_, ?_⟩
    · intro s hs hsne
      subst hs
      replace h1 : (if s = "" then true else decide (r.booking_status = s)) = true := h1
      rw [if_neg hsne] at h1
      exact of_decide_eq_true h1
    · intro v hv hvne
      subst hv
      replace h2 : (if v = "" then true else decide (r.vehicle_type = v)) = true := h2
      rw [if_neg hvne] at h2
      exact of_decide_eq_true h2
    · intro c hc hcne
      subst hc
      replace h3 : (if c = "" then true else decide (r.customer_id = wrapQ c)) = true := h3
      rw [if_neg hcne] at h3
      have hcw : r.customer_id = wrapQ c := of_decide_eq_true h3
      rw [hcw, stripQ_wrapQ]
  · intro hnd
    have hsub : List.Sublist
        ((ds.filter (fileBookingsPred st vt cid)).map (fun r => stripQ r.booking_id))
        (ds.map (fun r => stripQ r.booking_id)) :=
      List.Sublist.map _ (List.filter_sublist _)
    have hnd2 := List.Nodup.sublist hsub hnd
    show (ds.filter (fileBookingsPred st vt cid)).length = _
    rw [distinctCount, List.dedup_eq_self.2 hnd2, List.length_map]

/-- Witness for C2 (amended): on the sample dataset filtered by
status=Completed, total_found coincides with the distinct-booking count of
the matching rows, and the first sample row satisfies the status filter. -/
theorem claim2_bookings_filters_witness :
    ((pandasGetBookings sampleDs 100 (some "Completed") none none).total_found
      = distinctCount ((sampleDs.filter
          (fileBookingsPred (some "Completed") none none)).map
          (fun r => stripQ r.booking_id))) ∧
    (⟨some ⟨2025, 9, 1⟩, some ⟨8, 15, 0⟩, "\"B001\"", "Completed", "\"C001\"",
        "Sedan", "Card"⟩ : UberBooking).booking_status = "Completed" :=
  ⟨(claim2_bookings_filters sampleDs 100 (some "Completed") none none).2.2.2.2
      (by decide),
   ((claim2_bookings_filters sampleDs 100 (some "Completed") none none).2.2.2.1
      ⟨some ⟨2025, 9, 1⟩, some ⟨8, 15, 0⟩, "\"B001\"", "Completed", "\"C001\"",
        "Sedan", "Card"⟩ (by decide)).2.1 "Completed" rfl (by decide)⟩

/-- Counterexample to C3 as stated: the file-backed bookings list returns
the rows of `unsortDs` in storage order — a record dated 2025-09-02 before
one dated 2025-09-01 — so its output is not sorted ascending by
(date, time, booking_id). -/
theorem claim3_counterexample :
    ((pandasGetBookings unsortDs 100 none none none).bookings.map (fun r => r.date))
      = [some ⟨2025, 9, 2⟩, some ⟨2025, 9, 1⟩] ∧
    ¬ List.Sorted (fun a b : UberBooking => dbOrderKey a ≤ dbOrderKey b)
        (pandasGetBookings unsortDs 100 none none none).bookings := by
  refine ⟨by decide, ?_⟩
  intro hsorted
  have hmem : (⟨some ⟨2025, 9, 1⟩, some ⟨8, 15, 0⟩, "\"B001\"", "Completed",
      "\"C001\"", "Sedan", "Card"⟩ : UberBooking)
      ∈ [(⟨some ⟨2025, 9, 1⟩, some ⟨8, 15, 0⟩, "\"B001\"", "Completed",
      "\"C001\"", "Sedan", "Card"⟩ : UberBooking)] := List.mem_singleton.2 rfl
  have hle := List.rel_of_sorted_cons hsorted _ hmem
  have hle' : toLex ((2025 : Nat), toLex ((9 : Nat), toLex ((2 : Nat),
        toLex ((8 : Nat), toLex ((30 : Nat), toLex ((0 : Nat), "\"B003\""))))))
      ≤ toLex ((2025 : Nat), toLex ((9 : Nat), toLex ((1 : Nat),
        toLex ((8 : Nat), toLex ((15 : Nat), toLex ((0 : Nat), "\"B001\"")))))) := hle
  rcases (Prod.Lex.le_iff _ _).1 hle' with h | ⟨-, h2⟩
  · exact absurd h (by omega)
  · rcases (Prod.Lex.le_iff _ _).1 h2 with h | ⟨-, h3⟩
    · exact absurd h (by omega)
    · rcases (Prod.Lex.le_iff _ _).1 h3 with h | ⟨h, -⟩
      · exact absurd h (by omega)
      · exact absurd h (by omega)

/-- C3 (amended): only the store-backed variant sorts — its bookings list
is sorted ascending by (date, time, booking_id) for every dataset and
filter combination — while the file-backed variant returns the matching
records in their underlying storage order (a sublist of the stored
sequence), unsorted. -/
theorem claim3_ordering :
    (∀ (ds : List UberBooking) (limit : Nat) (st vt cid : Option String),
      List.Sorted (fun a b : UberBooking => dbOrderKey a ≤ dbOrderKey b)
        ((db_get_bookings ds limit st vt cid).bookings)) ∧
    (∀ (ds : List UberBooking) (limit : Nat) (st vt cid : Option String),
      List.Sublist ((pandasGetBookings ds limit st vt cid).bookings) ds) := by
  constructor
  · intro ds limit st vt cid
    exact List.Pairwise.sublist (List.take_sublist _ _) (sorted_sortOn dbOrderKey _)
  · intro ds limit st vt cid
    exact List.Sublist.trans (List.take_sublist _ _) (List.filter_sublist _)

/-- Counterexample to C4 as stated: in both variants the lookup gives
different results for the unquoted arrival "B001" (found) and the quoted
arrival "\"B001\"" (not found) of the same identifier. -/
theorem claim4_counterexample :
    (get_booking_by_id (some quotedIdDs) "B001").1 ≠
      (get_booking_by_id (some quotedIdDs) "\"B001\"").1 ∧
    db_get_booking_by_id dbIdDs "B001" ≠ db_get_booking_by_id dbIdDs "\"B001\"" := by
  decide

theorem lookup_isOk_iff (p : UberBooking → Bool) (ds : List UberBooking) :
    ((match ds.filter p with
      | [] => (Except.error (⟨404, "Booking not found"⟩ : HErr) : Except HErr UberBooking)
      | r :: _ => Except.ok r).isOk = true) ↔ ∃ r ∈ ds, p r = true := by
  cases hf : ds.filter p with
  | nil =>
    simp only [Except.isOk]
    constructor
    · intro h; cases h
    · rintro ⟨r, hr, hpr⟩
      have hm : r ∈ ds.filter p := List.mem_filter.2 ⟨hr, hpr⟩
      rw [hf] at hm
      cases hm
  | cons r t =>
    simp only [Except.isOk]
    constructor
    · intro _
      have hm : r ∈ ds.filter p := hf ▸ List.mem_cons_self r t
      have h2 := List.mem_filter.1 hm
      exact ⟨r, h2.1, h2.2⟩
    · intro _; rfl

theorem get_booking_by_id_fst (ds : List UberBooking) (bid : String) :
    (get_booking_by_id (some ds) bid).1
      = match ds.filter (fun r => decide (r.booking_id = wrapQ bid)) with
        | [] => Except.error ⟨404, "Booking not found"⟩
        | r :: _ => Except.ok r := by
  cases hf : ds.filter (fun r => decide (r.booking_id = wrapQ bid)) with
  | nil => simp only [get_booking_by_id, hf]
  | cons r t => simp only [get_booking_by_id, hf]

/-- C4 (amended): the lookup applies no quote-stripping to the incoming
identifier: the file-backed variant succeeds exactly when some stored
record's booking_id equals the identifier wrapped in one pair of literal
quotes, and the store-backed variant exactly when some stored booking_id
equals the identifier verbatim — so a quoted and an unquoted arrival of the
same identifier are not interchangeable. -/
theorem claim4_lookup_verbatim :
    ∀ (ds : List UberBooking) (bid : String),
      ((get_booking_by_id (some ds) bid).1.isOk = true ↔
        ∃ r ∈ ds, r.booking_id = wrapQ bid) ∧
      ((db_get_booking_by_id ds bid).isOk = true ↔
        ∃ r ∈ ds, r.booking_id = bid) := by
  intro ds bid
  constructor
  · rw [get_booking_by_id_fst, lookup_isOk_iff]
    simp
  · rw [db_get_booking_by_id, lookup_isOk_iff]
    simp

/-- Counterexample to C5 as stated: on an identifier with an interior quote
the code's normalization removes the interior quote as well, where the
spec's single-pair strip keeps it. -/
theorem claim5_counterexample :
    stripQ "\"AB\"CD\"" = "ABCD" ∧
    specStripOuterPair "\"AB\"CD\"" = "AB\"CD" ∧
    stripQ "\"AB\"CD\"" ≠ specStripOuterPair "\"AB\"CD\"" := by
  decide

/-- C5 (amended): the normalization removes every literal quote character
of the identifier, interior ones included; on identifiers whose only quotes
are one wrapping pair it coincides with the spec's single-pair strip, and a
quote-free identifier passes through unchanged. -/
theorem claim5_strip_semantics :
    ∀ s : String,
      (stripQ s).data = s.data.filter (fun c => decide (c ≠ quoteChar)) ∧
      (s.data.all (fun c => decide (c ≠ quoteChar)) = true →
        stripQ s = s ∧ stripQ (wrapQ s) = s ∧ specStripOuterPair (wrapQ s) = s) := by
  intro s
  refine ⟨rfl, ?_⟩
  intro hall
  have hfs : s.data.filter (fun c => decide (c ≠ quoteChar)) = s.data :=
    List.filter_eq_self.2 (List.all_eq_true.1 hall)
  have h1 : stripQ s = s := by
    show String.mk (s.data.filter (fun c => decide (c ≠ quoteChar))) = s
    rw [hfs]
  refine ⟨h1, by rw [stripQ_wrapQ, h1], ?_⟩
  show (if quoteChar = quoteChar ∧ (s.data ++ [quoteChar]) ≠ [] ∧
        (s.data ++ [quoteChar]).getLast? = some quoteChar
      then String.mk (s.data ++ [quoteChar]).dropLast
      else wrapQ s) = s
  rw [if_pos ⟨rfl, by simp, by simp⟩, List.dropLast_concat]

/-- Witness for C5 (amended): the quote-free identifier B001 passes through
the normalization unchanged and its wrapped form strips back to it. -/
theorem claim5_strip_semantics_witness :
    stripQ "B001" = "B001" ∧ stripQ (wrapQ "B001") = "B001" ∧
    specStripOuterPair (wrapQ "B001") = "B001" :=
  (claim5_strip_semantics "B001").2 (by decide)

end UberDA

